import Mathlib

/-!
# Verification of the vscode-jira integration core

Shallow embedding of the repository's core logic:

* `src/providers/jiraIssueProvider.ts` — the tree adapter
  (`getIssuesForCategory`, `createCategoryItems`, `getChildren`) and the
  API client (`JiraApiClient` operations, `executeWithRetry`,
  `handleApiError`-shaped errors).
* `src/auth/jiraAuthProvider.ts` — the credential lifecycle
  (`authenticate`, `getCredentials`, `clearCredentials`,
  `getAuthenticationStatus`, `shouldRevalidateCredentials`).

Remote HTTP calls, the IDE secret store and input boxes are external
collaborators; they are modelled as explicit parameters (responder
functions / `Option` inputs) and explicit state records.  Emitted user
warnings and operation invocations are returned as explicit traces.
-/

namespace VsCodeJira

/-! ## Basic string helpers mirroring the JavaScript primitives -/

/-- JavaScript `String.prototype.toLowerCase` (ASCII-faithful):
lower-case each character. -/
def jsToLowerCase (s : String) : String :=
  String.mk (s.data.map Char.toLower)

/-- JavaScript `s.includes(pat)`: `pat` occurs as a contiguous substring of `s`. -/
def jsIncludes (s pat : String) : Bool :=
  decide (pat.data <:+: s.data)

/-- JavaScript falsy-or for strings: `a || b` where empty string is falsy. -/
def jsOrString (a : Option String) (b : String) : String :=
  match a with
  | some s => if s.isEmpty then b else s
  | none => b

/-- Source `truncateText` from `jiraIssueProvider.ts`: texts longer than
`maxLength` are cut to `maxLength - 3` characters and suffixed `"..."`. -/
def truncateText (text : String) (maxLength : Nat) : String :=
  if text.length ≤ maxLength then text
  else (text.take (maxLength - 3)) ++ "..."

/-! ## Issue data model (`JiraIssue` interface of `jiraApiClient.ts`) -/

structure JiraStatus where
  name : String
deriving DecidableEq, Repr

structure JiraIssueType where
  name : String
deriving DecidableEq, Repr

structure JiraProjectRef where
  key : String
  name : String
deriving DecidableEq, Repr

structure JiraPriority where
  name : String
deriving DecidableEq, Repr

structure JiraPerson where
  displayName : String
  emailAddress : String
deriving DecidableEq, Repr

structure JiraIssueFields where
  summary : String
  description : Option String
  status : JiraStatus
  issuetype : JiraIssueType
  project : JiraProjectRef
  priority : Option JiraPriority
  assignee : Option JiraPerson
  created : String
  updated : String
deriving DecidableEq, Repr

structure JiraIssue where
  key : String
  fields : JiraIssueFields
deriving DecidableEq, Repr

/-! ## Tree items (`JiraTreeItem` of `jiraIssueProvider.ts`) -/

inductive TreeItemType where
  | category
  | issue
deriving DecidableEq, Repr

inductive CollapsibleState where
  | none
  | collapsed
  | expanded
deriving DecidableEq, Repr

structure JiraTreeItem where
  label : String
  collapsibleState : CollapsibleState
  iconPath : Option String
  contextValue : Option String
  issue : Option JiraIssue
  itemType : TreeItemType
deriving DecidableEq, Repr

/-! ## Category predicates

The four filter lambdas are written out twice in the source (once in
`getIssuesForCategory`, once in `createCategoryItems`) with identical
text; they are shared here. -/

/-- Source `status.name.toLowerCase().includes('progress') || ...includes('development')`. -/
def inProgressFilter (issue : JiraIssue) : Bool :=
  jsIncludes (jsToLowerCase issue.fields.status.name) "progress" ||
  jsIncludes (jsToLowerCase issue.fields.status.name) "development"

/-- Source `'to do' || 'open' || 'backlog'`. -/
def toDoFilter (issue : JiraIssue) : Bool :=
  jsIncludes (jsToLowerCase issue.fields.status.name) "to do" ||
  jsIncludes (jsToLowerCase issue.fields.status.name) "open" ||
  jsIncludes (jsToLowerCase issue.fields.status.name) "backlog"

/-- Source `'review' || 'testing'`. -/
def reviewFilter (issue : JiraIssue) : Bool :=
  jsIncludes (jsToLowerCase issue.fields.status.name) "review" ||
  jsIncludes (jsToLowerCase issue.fields.status.name) "testing"

/-- Source `'done' || 'closed' || 'resolved'`. -/
def doneFilter (issue : JiraIssue) : Bool :=
  jsIncludes (jsToLowerCase issue.fields.status.name) "done" ||
  jsIncludes (jsToLowerCase issue.fields.status.name) "closed" ||
  jsIncludes (jsToLowerCase issue.fields.status.name) "resolved"

/-- The issue tree item built at the end of `getIssuesForCategory`. -/
def mkIssueTreeItem (issue : JiraIssue) : JiraTreeItem :=
  { label := issue.key ++ ": " ++ truncateText issue.fields.summary 40
    collapsibleState := CollapsibleState.none
    iconPath := Option.none
    contextValue := Option.none
    issue := some issue
    itemType := TreeItemType.issue }

/-- Source `getIssuesForCategory` of `jiraIssueProvider.ts`: switch on the exact
category label; any label other than the four bare names takes the
`default` branch, which keeps the whole issue list. -/
def getIssuesForCategory (issues : List JiraIssue) (category : String) : List JiraTreeItem :=
  let filteredIssues : List JiraIssue :=
    if category = "In Progress" then issues.filter inProgressFilter
    else if category = "To Do" then issues.filter toDoFilter
    else if category = "Review" then issues.filter reviewFilter
    else if category = "Done" then issues.filter doneFilter
    else issues
  filteredIssues.map mkIssueTreeItem

/-- The per-category issue count computed in `createCategoryItems`
(switch on the category name; unknown names keep the initial count 0). -/
def categoryCount (issues : List JiraIssue) (name : String) : Nat :=
  if name = "In Progress" then (issues.filter inProgressFilter).length
  else if name = "To Do" then (issues.filter toDoFilter).length
  else if name = "Review" then (issues.filter reviewFilter).length
  else if name = "Done" then (issues.filter doneFilter).length
  else 0

/-- The fixed category table of `createCategoryItems`: name and icon. -/
def fixedCategories : List (String × String) :=
  [("In Progress", "play"), ("To Do", "circle-outline"),
   ("Review", "eye"), ("Done", "check")]

/-- The bare category names the `getIssuesForCategory` switch matches on. -/
def fixedCategoryNames : List String :=
  ["In Progress", "To Do", "Review", "Done"]

/-- The category tree item built at the end of `createCategoryItems`:
label is the name with the count appended in parentheses. -/
def mkCategoryTreeItem (name icon : String) (count : Nat) : JiraTreeItem :=
  { label := name ++ " (" ++ toString count ++ ")"
    collapsibleState := CollapsibleState.collapsed
    iconPath := some icon
    contextValue := some "jiraCategory"
    issue := Option.none
    itemType := TreeItemType.category }

/-- Source `createCategoryItems`: count each fixed category, drop the ones with
count 0, and render the rest with count-suffixed labels. -/
def createCategoryItems (issues : List JiraIssue) : List JiraTreeItem :=
  ((fixedCategories.map (fun c => (c.1, c.2, categoryCount issues c.1))).filter
      (fun c => 0 < c.2.2)).map
    (fun c => mkCategoryTreeItem c.1 c.2.1 c.2.2)

/-- The category branch of `getChildren`: expanding a category item calls
`getIssuesForCategory(element.label)` — the label as displayed, count
suffix included. -/
def childrenOfCategoryItem (issues : List JiraIssue) (element : JiraTreeItem) :
    List JiraTreeItem :=
  getIssuesForCategory issues element.label

/-! ## API client errors and the retry wrapper (`jiraApiClient.ts`)

Errors produced by `handleApiError` carry a message and, when the server
answered, the numeric HTTP status (`(apiError as any).status = status`);
plain `Error` objects (e.g. network errors) have no status. -/

structure ApiError where
  message : String
  status : Option Nat
deriving DecidableEq, Repr

/-- Source `maxRetries` field of `JiraApiClient`. -/
def maxRetries : Nat := 3

/-- Source `retryDelay` field of `JiraApiClient` (milliseconds). -/
def retryDelay : Nat := 1000

/-- The non-retryable test of `executeWithRetry`:
`error.status === 401 || error.status === 403 || (error.status >= 400 && error.status < 500)`.
A missing status compares false throughout, as in JavaScript. -/
def isClientError (status : Option Nat) : Bool :=
  match status with
  | some s => s == 401 || s == 403 || (decide (400 ≤ s) && decide (s < 500))
  | none => false

/-- One backoff warning surfaced by `executeWithRetry` via
`showWarningMessage`, kept structured for the trace. -/
structure RetryWarning where
  operationName : String
  delayMs : Nat
  attempt : Nat
deriving DecidableEq, Repr

/-- The exact warning text the source passes to `showWarningMessage`. -/
def renderRetryWarning (w : RetryWarning) : String :=
  "Failed to " ++ w.operationName ++ ", retrying in " ++ toString (w.delayMs / 1000) ++
    "s... (attempt " ++ toString w.attempt ++ "/" ++ toString maxRetries ++ ")"

def exceptDecEq {ε α : Type} [DecidableEq ε] [DecidableEq α] :
    (a b : Except ε α) → Decidable (a = b)
  | Except.ok x, Except.ok y =>
    if h : x = y then isTrue (congrArg Except.ok h)
    else isFalse (fun hc => h (Except.ok.inj hc))
  | Except.ok _, Except.error _ => isFalse (fun hc => Except.noConfusion hc)
  | Except.error _, Except.ok _ => isFalse (fun hc => Except.noConfusion hc)
  | Except.error x, Except.error y =>
    if h : x = y then isTrue (congrArg Except.error h)
    else isFalse (fun hc => h (Except.error.inj hc))

instance {ε α : Type} [DecidableEq ε] [DecidableEq α] : DecidableEq (Except ε α) :=
  exceptDecEq

/-- Result of running an operation through `executeWithRetry`, together
with the trace of warnings emitted and of the attempt numbers at which
the operation body was invoked. -/
structure RetryResult (T : Type) where
  result : Except ApiError T
  warnings : List RetryWarning
  calls : List Nat
deriving DecidableEq, Repr

/-- The `for (let attempt = 1; attempt <= this.maxRetries; attempt++)`
loop of `executeWithRetry`, from a given attempt.  `fuel` counts the
loop iterations the guard `attempt <= maxRetries` still allows
(`maxRetries + 1 - attempt`, kept as a structural argument); `lastError`
mirrors the mutable local of the source; the operation is modelled as a
function of the attempt number (each invocation is one HTTP exchange). -/
def retryFromAttempt {T : Type} (op : Nat → Except ApiError T) (operationName : String) :
    Nat → Nat → ApiError → RetryResult T
  | 0, _, lastError => ⟨Except.error lastError, [], []⟩
  | fuel + 1, attempt, _lastError =>
    match op attempt with
    | Except.ok v => ⟨Except.ok v, [], [attempt]⟩
    | Except.error e =>
      if isClientError e.status then ⟨Except.error e, [], [attempt]⟩
      else if attempt = maxRetries then ⟨Except.error e, [], [attempt]⟩
      else
        let delay := retryDelay * 2 ^ (attempt - 1)
        let rest := retryFromAttempt op operationName fuel (attempt + 1) e
        ⟨rest.result, ⟨operationName, delay, attempt⟩ :: rest.warnings, attempt :: rest.calls⟩

/-- The initial value of the `lastError` local. -/
def initialRetryError (operationName : String) : ApiError :=
  ⟨"Failed to " ++ operationName ++ " after " ++ toString maxRetries ++ " attempts",
   Option.none⟩

/-- Source `executeWithRetry` of `JiraApiClient`: run the loop from attempt 1,
whose guard allows `maxRetries` iterations. -/
def executeWithRetry {T : Type} (op : Nat → Except ApiError T) (operationName : String) :
    RetryResult T :=
  retryFromAttempt op operationName maxRetries 1 (initialRetryError operationName)

/-! ## API client state and operations -/

/-- Source `JiraCredentials` of `jiraAuthProvider.ts`. -/
structure JiraCredentials where
  baseUrl : String
  email : String
  apiToken : String
deriving DecidableEq, Repr

/-- The axios instance is modelled by the base URL it was constructed
with; headers and timeout are constants not observed by any claim. -/
structure AxiosTransport where
  baseURL : String
deriving DecidableEq, Repr

structure JiraApiClient where
  axiosInstance : Option AxiosTransport
  credentials : Option JiraCredentials
deriving DecidableEq, Repr

/-- A freshly constructed client: both fields initialised to null. -/
def JiraApiClient.new : JiraApiClient :=
  ⟨Option.none, Option.none⟩

/-- Source `setCredentials`: stores the credentials and builds the transport
bound to `baseUrl + "/rest/api/3"`. -/
def JiraApiClient.setCredentials (_client : JiraApiClient) (credentials : JiraCredentials) :
    JiraApiClient :=
  ⟨some ⟨credentials.baseUrl ++ "/rest/api/3"⟩, some credentials⟩

/-- The `Error('Not authenticated. Please set credentials first.')`
every operation throws when the transport is null. -/
def notAuthenticatedError : ApiError :=
  ⟨"Not authenticated. Please set credentials first.", Option.none⟩

/-- Outcome of an operation that failed its authentication guard: the
error is thrown before any retry or HTTP activity. -/
def notAuthenticatedResult {T : Type} : RetryResult T :=
  ⟨Except.error notAuthenticatedError, [], []⟩

/-- The default JQL of `getIssues`. -/
def searchJqlDefault : String :=
  "assignee = currentUser() AND resolution = Unresolved ORDER BY updated DESC"

/-- Body shape of a `/search` response: `response.data.issues` may be
absent. -/
structure SearchResponseData where
  issues : Option (List JiraIssue)
deriving DecidableEq, Repr

structure JiraProject where
  key : String
  name : String
  id : String
deriving DecidableEq, Repr

/-- Body shape of a `/project/search` response: `response.data.values`
may be absent. -/
structure ProjectSearchResponseData where
  values : Option (List JiraProject)
deriving DecidableEq, Repr

structure JiraTransition where
  id : String
  name : String
deriving DecidableEq, Repr

/-- Body shape of a `/issue/{key}/transitions` response:
`response.data.transitions` may be absent. -/
structure TransitionsResponseData where
  transitions : Option (List JiraTransition)
deriving DecidableEq, Repr

/-- Body shape of a `/myself` response. -/
structure CurrentUserData where
  accountId : String
  displayName : String
  emailAddress : String
deriving DecidableEq, Repr

/-- Source `getIssues`: guard, default JQL, retry around one GET `/search` per
attempt, `response.data.issues || []`.  The remote is a responder from
attempt number to the exchange's outcome. -/
def JiraApiClient.getIssues (client : JiraApiClient) (jql : Option String)
    (http : Nat → Except ApiError SearchResponseData) : RetryResult (List JiraIssue) :=
  match client.axiosInstance with
  | Option.none => notAuthenticatedResult
  | some _ =>
    let _searchJql := jql.getD searchJqlDefault
    executeWithRetry (fun attempt => (http attempt).map (fun d => d.issues.getD []))
      "fetch issues"

/-- Source `getIssue`. -/
def JiraApiClient.getIssue (client : JiraApiClient) (issueKey : String)
    (http : Nat → Except ApiError JiraIssue) : RetryResult JiraIssue :=
  match client.axiosInstance with
  | Option.none => notAuthenticatedResult
  | some _ => executeWithRetry http ("fetch issue " ++ issueKey)

/-- Source `updateIssueStatus`: POST of the transition id, no result payload. -/
def JiraApiClient.updateIssueStatus (client : JiraApiClient) (issueKey : String)
    (_transitionId : String) (http : Nat → Except ApiError Unit) : RetryResult Unit :=
  match client.axiosInstance with
  | Option.none => notAuthenticatedResult
  | some _ => executeWithRetry http ("update status for issue " ++ issueKey)

/-- Source `addComment`: POST of the rich-text wrapped comment. -/
def JiraApiClient.addComment (client : JiraApiClient) (issueKey : String)
    (_comment : String) (http : Nat → Except ApiError Unit) : RetryResult Unit :=
  match client.axiosInstance with
  | Option.none => notAuthenticatedResult
  | some _ => executeWithRetry http ("add comment to issue " ++ issueKey)

structure CreateIssueRequest where
  summary : String
  description : String
  issueType : Option String
  projectKey : Option String
  priority : Option String
deriving DecidableEq, Repr

/-- Source `createIssue`: the guard checks both the transport and the stored
credentials; the body (default-project resolution, POST, re-fetch) is
abstracted as the composed remote interaction per attempt. -/
def JiraApiClient.createIssue (client : JiraApiClient) (_request : CreateIssueRequest)
    (http : Nat → Except ApiError JiraIssue) : RetryResult JiraIssue :=
  match client.axiosInstance, client.credentials with
  | some _, some _ => executeWithRetry http "create issue"
  | _, _ => notAuthenticatedResult

/-- Source `getProjects`: `response.data.values || []`. -/
def JiraApiClient.getProjects (client : JiraApiClient)
    (http : Nat → Except ApiError ProjectSearchResponseData) : RetryResult (List JiraProject) :=
  match client.axiosInstance with
  | Option.none => notAuthenticatedResult
  | some _ =>
    executeWithRetry (fun attempt => (http attempt).map (fun d => d.values.getD []))
      "fetch projects"

/-- Source `getIssueTransitions`: `response.data.transitions || []`. -/
def JiraApiClient.getIssueTransitions (client : JiraApiClient) (issueKey : String)
    (http : Nat → Except ApiError TransitionsResponseData) : RetryResult (List JiraTransition) :=
  match client.axiosInstance with
  | Option.none => notAuthenticatedResult
  | some _ =>
    executeWithRetry (fun attempt => (http attempt).map (fun d => d.transitions.getD []))
      ("fetch transitions for issue " ++ issueKey)

/-- Source `getCurrentUser`: projects the three identity fields of `/myself`. -/
def JiraApiClient.getCurrentUser (client : JiraApiClient)
    (http : Nat → Except ApiError CurrentUserData) : RetryResult CurrentUserData :=
  match client.axiosInstance with
  | Option.none => notAuthenticatedResult
  | some _ =>
    executeWithRetry
      (fun attempt => (http attempt).map (fun d => ⟨d.accountId, d.displayName, d.emailAddress⟩))
      "fetch current user"

/-- Source `assignIssue`: PUT of the assignee (or null to clear). -/
def JiraApiClient.assignIssue (client : JiraApiClient) (issueKey : String)
    (_assigneeId : Option String) (http : Nat → Except ApiError Unit) : RetryResult Unit :=
  match client.axiosInstance with
  | Option.none => notAuthenticatedResult
  | some _ => executeWithRetry http ("assign issue " ++ issueKey)

/-! ## Auth manager (`jiraAuthProvider.ts`)

The persistent state is the secret store entry under
`jira.credentials`, the `jira.lastValidated` global-state entry (epoch
milliseconds) and the `jira:authenticated` context flag.  Remote
validation (`validateCredentials`, a GET of `/myself`) is an external
call and is passed in as its outcome; the number of validation calls
performed is returned as an explicit count. -/

structure AuthState where
  storedCredentials : Option JiraCredentials
  lastValidated : Option Nat
  authenticatedContext : Bool
deriving DecidableEq, Repr

/-- Source `VALIDATION_INTERVAL = 24 * 60 * 60 * 1000` milliseconds. -/
def validationInterval : Nat := 24 * 60 * 60 * 1000

/-- Source `clearCredentials`: deletes the secret, clears the timestamp and
resets the `jira:authenticated` context flag. -/
def clearCredentials (_st : AuthState) : AuthState :=
  ⟨Option.none, Option.none, false⟩

/-- Source `shouldRevalidateCredentials`: `!lastValidated` is true in
JavaScript for a missing value and for the number 0; otherwise compare
`Date.now() - lastValidated` against the 24h interval. -/
def shouldRevalidateCredentials (st : AuthState) (now : Nat) : Bool :=
  match st.lastValidated with
  | Option.none => true
  | some ts => if ts = 0 then true else decide (validationInterval < now - ts)

/-- Result of `getCredentials`: the returned value, the post-state, and
how many silent remote validations were performed. -/
structure GetCredentialsOutcome where
  result : Option JiraCredentials
  state : AuthState
  validationCalls : Nat
deriving DecidableEq, Repr

/-- Source `getCredentials`: read the secret; when revalidation is due run one
silent validation — on success stamp `lastValidated := Date.now()`, on
failure clear everything and return null.  `validationOk` is the
outcome of that (single) remote call. -/
def getCredentials (st : AuthState) (now : Nat) (validationOk : Bool) :
    GetCredentialsOutcome :=
  match st.storedCredentials with
  | Option.none => ⟨Option.none, st, 0⟩
  | some credentials =>
    if shouldRevalidateCredentials st now then
      if validationOk then
        ⟨some credentials, { st with lastValidated := some now }, 1⟩
      else
        ⟨Option.none, clearCredentials st, 1⟩
    else
      ⟨some credentials, st, 0⟩

/-- Source `baseUrl.replace(/\/$/, '')`: the regex matches one final slash, so
exactly the last character is removed when it is a slash. -/
def stripTrailingSlash (s : String) : String :=
  if s.data.getLast? = some '/' then String.mk s.data.dropLast else s

/-- Source `authenticate`: collect base URL, email and token (each input box
may be cancelled, modelled as `Option`), normalise the base URL,
validate remotely (outcome passed in as an `Except`, its error
propagating unchanged), then store the credentials.  The timestamp is
not touched here — `authenticate` never calls `updateLastValidated`. -/
def authenticate (st : AuthState) (baseUrlInput emailInput apiTokenInput : Option String)
    (validation : JiraCredentials → Except String Unit) :
    Except String (JiraCredentials × AuthState) :=
  match baseUrlInput with
  | Option.none => Except.error "Base URL is required"
  | some baseUrl =>
    match emailInput with
    | Option.none => Except.error "Email is required"
    | some email =>
      match apiTokenInput with
      | Option.none => Except.error "API token is required"
      | some apiToken =>
        let credentials : JiraCredentials := ⟨stripTrailingSlash baseUrl, email, apiToken⟩
        match validation credentials with
        | Except.error msg => Except.error msg
        | Except.ok _ =>
          Except.ok (credentials, { st with storedCredentials := some credentials })

/-- Body shape of the `/myself` probe in `getAuthenticationStatus`. -/
structure ProbeUserData where
  displayName : Option String
  emailAddress : String
deriving DecidableEq, Repr

structure AuthStatus where
  authenticated : Bool
  user : Option String
  baseUrl : Option String
deriving DecidableEq, Repr

structure AuthStatusOutcome where
  status : AuthStatus
  state : AuthState
  validationCalls : Nat
deriving DecidableEq, Repr

/-- Source `getAuthenticationStatus`: goes through `getCredentials` (including
its revalidation side effects), then probes `/myself` directly; any
probe error yields `{authenticated: false}` with no further state
change. -/
def getAuthenticationStatus (st : AuthState) (now : Nat) (validationOk : Bool)
    (probe : JiraCredentials → Except String ProbeUserData) : AuthStatusOutcome :=
  let g := getCredentials st now validationOk
  match g.result with
  | Option.none => ⟨⟨false, Option.none, Option.none⟩, g.state, g.validationCalls⟩
  | some credentials =>
    match probe credentials with
    | Except.ok data =>
      ⟨⟨true, some (jsOrString data.displayName data.emailAddress), some credentials.baseUrl⟩,
       g.state, g.validationCalls⟩
    | Except.error _ => ⟨⟨false, Option.none, Option.none⟩, g.state, g.validationCalls⟩

/-! ## Concrete fixtures used by witnesses and counterexamples -/

/-- A minimal issue with the given status name. -/
def issueWithStatus (status : String) : JiraIssue :=
  { key := "T-1"
    fields := { summary := "s", description := Option.none, status := ⟨status⟩,
                issuetype := ⟨"Task"⟩, project := ⟨"P", "Proj"⟩,
                priority := Option.none, assignee := Option.none,
                created := "2024-01-01", updated := "2024-01-02" } }

/-! # Theorems -/

/-! ## Helper lemmas -/

theorem mkIssueTreeItem_inj {i j : JiraIssue} (h : mkIssueTreeItem i = mkIssueTreeItem j) :
    i = j := by
  have := congrArg JiraTreeItem.issue h
  simpa [mkIssueTreeItem] using this

theorem mem_map_mkIssueTreeItem_filter (issues : List JiraIssue) (p : JiraIssue → Bool)
    (i : JiraIssue) :
    mkIssueTreeItem i ∈ (issues.filter p).map mkIssueTreeItem ↔ i ∈ issues ∧ p i = true := by
  constructor
  · intro h
    obtain ⟨j, hj, hji⟩ := List.mem_map.mp h
    obtain rfl : j = i := mkIssueTreeItem_inj hji
    exact List.mem_filter.mp hj
  · intro ⟨h1, h2⟩
    exact List.mem_map_of_mem _ (List.mem_filter.mpr ⟨h1, h2⟩)

theorem getIssuesForCategory_inProgress (issues : List JiraIssue) :
    getIssuesForCategory issues "In Progress" =
      (issues.filter inProgressFilter).map mkIssueTreeItem := rfl

theorem getIssuesForCategory_toDo (issues : List JiraIssue) :
    getIssuesForCategory issues "To Do" = (issues.filter toDoFilter).map mkIssueTreeItem := rfl

theorem getIssuesForCategory_review (issues : List JiraIssue) :
    getIssuesForCategory issues "Review" = (issues.filter reviewFilter).map mkIssueTreeItem := rfl

theorem getIssuesForCategory_done (issues : List JiraIssue) :
    getIssuesForCategory issues "Done" = (issues.filter doneFilter).map mkIssueTreeItem := rfl

theorem getIssuesForCategory_default (issues : List JiraIssue) (label : String)
    (h : label ∉ fixedCategoryNames) :
    getIssuesForCategory issues label = issues.map mkIssueTreeItem := by
  simp only [fixedCategoryNames, List.mem_cons, List.mem_singleton, not_or] at h
  obtain ⟨h1, h2, h3, h4⟩ := h
  simp [getIssuesForCategory, h1, h2, h3, h4]

/-! ## C1 — two 500s then success: attempt-3 value, warnings at 1000ms and 2000ms -/

/-- C1.  Any operation run through `executeWithRetry` that fails with an
HTTP 500 error on attempts 1 and 2 and succeeds on attempt 3 yields the
attempt-3 success value; the body is invoked on attempts 1, 2, 3; and
exactly two backoff warnings are emitted, the first with delay
`1000ms = 1000 * 2^0`, the second with delay `2000ms = 1000 * 2^1`. -/
theorem retry_two_500s_then_success {T : Type} (op : Nat → Except ApiError T)
    (operationName : String) (v : T) (e₁ e₂ : ApiError)
    (h1 : op 1 = Except.error e₁) (h1s : e₁.status = some 500)
    (h2 : op 2 = Except.error e₂) (h2s : e₂.status = some 500)
    (h3 : op 3 = Except.ok v) :
    executeWithRetry op operationName =
      ⟨Except.ok v,
       [⟨operationName, 1000, 1⟩, ⟨operationName, 2000, 2⟩],
       [1, 2, 3]⟩ := by
  simp [executeWithRetry, maxRetries, retryFromAttempt, h1, h2, h3, h1s, h2s,
    isClientError, retryDelay]

/-- Witness for C1 at a concrete operation failing twice with 500. -/
theorem retry_two_500s_then_success_witness :
    executeWithRetry
        (fun a => if a < 3 then (Except.error ⟨"boom", some 500⟩ : Except ApiError Nat)
                  else Except.ok 7)
        "fetch issues" =
      ⟨Except.ok 7,
       [⟨"fetch issues", 1000, 1⟩, ⟨"fetch issues", 2000, 2⟩],
       [1, 2, 3]⟩ :=
  retry_two_500s_then_success _ "fetch issues" 7 ⟨"boom", some 500⟩ ⟨"boom", some 500⟩
    (by decide) rfl (by decide) rfl (by decide)

/-! ## C4 — client errors (401/403/4xx) are never retried -/

/-- C4.  Any operation run through `executeWithRetry` whose first
attempt fails with an error carrying an HTTP 4xx status (which includes
401 and 403) is not retried: the body is invoked exactly once (attempt
1 only), no warning is emitted, and the first error is thrown. -/
theorem retry_client_error_fails_fast {T : Type} (op : Nat → Except ApiError T)
    (operationName : String) (e : ApiError) (s : Nat)
    (h1 : op 1 = Except.error e) (hs : e.status = some s)
    (h4a : 400 ≤ s) (h4b : s < 500) :
    executeWithRetry op operationName = ⟨Except.error e, [], [1]⟩ := by
  have hce : isClientError e.status = true := by
    simp only [hs, isClientError]
    simp [h4a, h4b]
  simp [executeWithRetry, maxRetries, retryFromAttempt, h1, hce]

/-- Witness for C4 at a concrete operation failing with 401. -/
theorem retry_client_error_fails_fast_witness :
    executeWithRetry (fun _ => (Except.error ⟨"auth", some 401⟩ : Except ApiError Nat))
        "fetch issues" =
      ⟨Except.error ⟨"auth", some 401⟩, [], [1]⟩ :=
  retry_client_error_fails_fast _ "fetch issues" ⟨"auth", some 401⟩ 401 rfl rfl
    (by decide) (by decide)

/-! ## C9 — every operation fails fast with NotAuthenticated before `setCredentials` -/

/-- C9.  On a freshly constructed client (no `setCredentials` call ever),
each of the nine exposed operations throws the `NotAuthenticated` error
immediately: the result is that error, no operation body is invoked (so
no HTTP request is issued, `calls = []`), no retry happens and no
warning is emitted (`warnings = []`). -/
theorem operations_fail_fast_when_unauthenticated :
    notAuthenticatedResult.result = (Except.error notAuthenticatedError : Except ApiError (List JiraIssue)) ∧
    (notAuthenticatedResult : RetryResult (List JiraIssue)).warnings = [] ∧
    (notAuthenticatedResult : RetryResult (List JiraIssue)).calls = [] ∧
    (∀ jql http, JiraApiClient.new.getIssues jql http = notAuthenticatedResult) ∧
    (∀ k http, JiraApiClient.new.getIssue k http = notAuthenticatedResult) ∧
    (∀ k tid http, JiraApiClient.new.updateIssueStatus k tid http = notAuthenticatedResult) ∧
    (∀ k c http, JiraApiClient.new.addComment k c http = notAuthenticatedResult) ∧
    (∀ req http, JiraApiClient.new.createIssue req http = notAuthenticatedResult) ∧
    (∀ http, JiraApiClient.new.getProjects http = notAuthenticatedResult) ∧
    (∀ k http, JiraApiClient.new.getIssueTransitions k http = notAuthenticatedResult) ∧
    (∀ http, JiraApiClient.new.getCurrentUser http = notAuthenticatedResult) ∧
    (∀ k a http, JiraApiClient.new.assignIssue k a http = notAuthenticatedResult) :=
  ⟨rfl, rfl, rfl,
   fun _ _ => rfl, fun _ _ => rfl, fun _ _ _ => rfl, fun _ _ _ => rfl,
   fun _ _ => rfl, fun _ => rfl, fun _ _ => rfl, fun _ => rfl, fun _ _ _ => rfl⟩

/-! ## C10 — list operations degrade to `[]` when the expected array field is absent -/

/-- C10.  With credentials set, a successful first-attempt response whose
body lacks the expected array field yields the empty list: `getIssues`
without an `issues` field, `getProjects` without a `values` field, and
`getIssueTransitions` without a `transitions` field all succeed with `[]`. -/
theorem missing_array_fields_degrade_to_empty (client : JiraApiClient)
    (t : AxiosTransport) (ht : client.axiosInstance = some t)
    (jql : Option String) (issueKey : String)
    (httpS : Nat → Except ApiError SearchResponseData)
    (hS : httpS 1 = Except.ok ⟨Option.none⟩)
    (httpP : Nat → Except ApiError ProjectSearchResponseData)
    (hP : httpP 1 = Except.ok ⟨Option.none⟩)
    (httpT : Nat → Except ApiError TransitionsResponseData)
    (hT : httpT 1 = Except.ok ⟨Option.none⟩) :
    (client.getIssues jql httpS).result = Except.ok [] ∧
    (client.getProjects httpP).result = Except.ok [] ∧
    (client.getIssueTransitions issueKey httpT).result = Except.ok [] := by
  refine ⟨?_, ?_, ?_⟩ <;>
    simp [JiraApiClient.getIssues, JiraApiClient.getProjects,
      JiraApiClient.getIssueTransitions, ht, executeWithRetry, maxRetries,
      retryFromAttempt, hS, hP, hT, Except.map]

/-- Witness for C10 on a concrete authenticated client and bodies with
all three array fields absent. -/
theorem missing_array_fields_degrade_to_empty_witness :
    ((JiraApiClient.new.setCredentials ⟨"https://x", "e", "t"⟩).getIssues Option.none
        (fun _ => Except.ok ⟨Option.none⟩)).result = Except.ok [] ∧
    ((JiraApiClient.new.setCredentials ⟨"https://x", "e", "t"⟩).getProjects
        (fun _ => Except.ok ⟨Option.none⟩)).result = Except.ok [] ∧
    ((JiraApiClient.new.setCredentials ⟨"https://x", "e", "t"⟩).getIssueTransitions "K-1"
        (fun _ => Except.ok ⟨Option.none⟩)).result = Except.ok [] :=
  missing_array_fields_degrade_to_empty _ ⟨"https://x" ++ "/rest/api/3"⟩ rfl
    Option.none "K-1" _ rfl _ rfl _ rfl

/-! ## C2 — "In Progress" placement and category disjointness

The disjointness half of the claim is false: category membership is
independent substring matching, so a status containing substrings of
two patterns lands in both categories. -/

/-- C2 counterexample.  The issue with status `"progress review"`
matches the In Progress pattern yet is placed in the `"Review"`
category as well — so it is not "in no other category", and the
`"In Progress"` and `"Review"` categories overlap on the one-issue
list containing it. -/
theorem inProgress_overlap_counterexample :
    inProgressFilter (issueWithStatus "progress review") = true ∧
    mkIssueTreeItem (issueWithStatus "progress review") ∈
      getIssuesForCategory [issueWithStatus "progress review"] "In Progress" ∧
    mkIssueTreeItem (issueWithStatus "progress review") ∈
      getIssuesForCategory [issueWithStatus "progress review"] "Review" := by
  decide

/-- C2 amended.  An issue whose status matches the In Progress pattern
(contains `"progress"` or `"development"` case-insensitively) is placed
in the `"In Progress"` category; it is in another category only if its
status also matches that category's own substring patterns, so the four
categories are disjoint only on issues matching at most one pattern
group. -/
theorem inProgress_placement (issues : List JiraIssue) (i : JiraIssue)
    (hmem : i ∈ issues) (hp : inProgressFilter i = true) :
    mkIssueTreeItem i ∈ getIssuesForCategory issues "In Progress" ∧
    (toDoFilter i = false → mkIssueTreeItem i ∉ getIssuesForCategory issues "To Do") ∧
    (reviewFilter i = false → mkIssueTreeItem i ∉ getIssuesForCategory issues "Review") ∧
    (doneFilter i = false → mkIssueTreeItem i ∉ getIssuesForCategory issues "Done") := by
  refine ⟨?_, ?_, ?_, ?_⟩
  · rw [getIssuesForCategory_inProgress]
    exact (mem_map_mkIssueTreeItem_filter issues inProgressFilter i).mpr ⟨hmem, hp⟩
  · intro hf hc
    rw [getIssuesForCategory_toDo] at hc
    have := ((mem_map_mkIssueTreeItem_filter issues toDoFilter i).mp hc).2
    rw [hf] at this
    exact Bool.false_ne_true this
  · intro hf hc
    rw [getIssuesForCategory_review] at hc
    have := ((mem_map_mkIssueTreeItem_filter issues reviewFilter i).mp hc).2
    rw [hf] at this
    exact Bool.false_ne_true this
  · intro hf hc
    rw [getIssuesForCategory_done] at hc
    have := ((mem_map_mkIssueTreeItem_filter issues doneFilter i).mp hc).2
    rw [hf] at this
    exact Bool.false_ne_true this

/-- Witness for the amended C2 on a status matching only the In
Progress pattern. -/
theorem inProgress_placement_witness :
    mkIssueTreeItem (issueWithStatus "In Development") ∈
      getIssuesForCategory [issueWithStatus "In Development"] "In Progress" ∧
    mkIssueTreeItem (issueWithStatus "In Development") ∉
      getIssuesForCategory [issueWithStatus "In Development"] "To Do" ∧
    mkIssueTreeItem (issueWithStatus "In Development") ∉
      getIssuesForCategory [issueWithStatus "In Development"] "Review" ∧
    mkIssueTreeItem (issueWithStatus "In Development") ∉
      getIssuesForCategory [issueWithStatus "In Development"] "Done" := by
  obtain ⟨a, b, c, d⟩ := inProgress_placement [issueWithStatus "In Development"]
    (issueWithStatus "In Development") (by decide) (by decide)
  exact ⟨a, b (by decide), c (by decide), d (by decide)⟩

/-! ## C6 — any label other than the four bare names returns the whole list -/

theorem getLast?_data_append_paren (p : String) :
    (p ++ ")").data.getLast? = some ')' := by
  rw [String.data_append]
  exact List.getLast?_concat _

/-- C6.  For every issue list and every category label that is not
character-for-character one of the four bare names, `getIssuesForCategory`
takes the switch's default branch and returns one tree item per issue of
the entire list, unfiltered; and every label `createCategoryItems`
actually produces (name with appended count) is such a label. -/
theorem unknown_label_returns_all_issues (issues : List JiraIssue) (label : String)
    (_hne : issues ≠ []) (h : label ∉ fixedCategoryNames) :
    getIssuesForCategory issues label = issues.map mkIssueTreeItem ∧
    (getIssuesForCategory issues label).length = issues.length ∧
    ∀ it ∈ createCategoryItems issues, it.label ∉ fixedCategoryNames := by
  have hdef := getIssuesForCategory_default issues label h
  refine ⟨hdef, by rw [hdef, List.length_map], ?_⟩
  intro it hit hlab
  have hlast : it.label.data.getLast? = some ')' := by
    simp only [createCategoryItems, List.mem_map] at hit
    obtain ⟨c, _, rfl⟩ := hit
    exact getLast?_data_append_paren _
  simp only [fixedCategoryNames, List.mem_cons, List.not_mem_nil, or_false] at hlab
  rcases hlab with h' | h' | h' | h' <;> rw [h'] at hlast <;>
    exact absurd hlast (by decide)

/-- Witness for C6: a one-issue list and the very label the tree
produces for it, `"In Progress (1)"`, which expands to the whole list. -/
theorem unknown_label_returns_all_issues_witness :
    getIssuesForCategory [issueWithStatus "In Progress"] "In Progress (1)" =
      [issueWithStatus "In Progress"].map mkIssueTreeItem ∧
    (getIssuesForCategory [issueWithStatus "In Progress"] "In Progress (1)").length =
      [issueWithStatus "In Progress"].length ∧
    ∀ it ∈ createCategoryItems [issueWithStatus "In Progress"],
      it.label ∉ fixedCategoryNames :=
  unknown_label_returns_all_issues [issueWithStatus "In Progress"] "In Progress (1)"
    (by decide) (by decide)

/-! ## C8 — issues matching no pattern are nevertheless shown under expanded categories

The per-category predicates do exclude such an issue, and zero-count
categories are omitted from the root; but `getChildren` passes the
count-suffixed label (e.g. `"In Progress (1)"`) into the
`getIssuesForCategory` switch, whose cases match only the bare names,
so expansion falls into the unfiltered default branch and lists every
loaded issue — including the unmatched one. -/

/-- C8 evaluation at the failing input
`issues = [status "Blocked", status "In Progress"]`.  The issue with
status `"Blocked"` matches none of the four patterns and is excluded by
each of the four per-category filters, and only the nonempty
`"In Progress"` category appears at the root — yet expanding that
category's actual tree item (label `"In Progress (1)"`) lists the
`"Blocked"` issue, so it is shown in the produced tree. -/
theorem unmatched_issue_shown_under_expanded_category :
    inProgressFilter (issueWithStatus "Blocked") = false ∧
    toDoFilter (issueWithStatus "Blocked") = false ∧
    reviewFilter (issueWithStatus "Blocked") = false ∧
    doneFilter (issueWithStatus "Blocked") = false ∧
    (∀ c ∈ fixedCategoryNames,
      mkIssueTreeItem (issueWithStatus "Blocked") ∉
        getIssuesForCategory [issueWithStatus "Blocked", issueWithStatus "In Progress"] c) ∧
    createCategoryItems [issueWithStatus "Blocked", issueWithStatus "In Progress"] =
      [mkCategoryTreeItem "In Progress" "play" 1] ∧
    mkIssueTreeItem (issueWithStatus "Blocked") ∈
      childrenOfCategoryItem [issueWithStatus "Blocked", issueWithStatus "In Progress"]
        (mkCategoryTreeItem "In Progress" "play" 1) := by
  decide

/-! ## C3 — stale credentials trigger exactly one silent validation; failure clears -/

theorem shouldRevalidate_of_stale (st : AuthState) (now : Nat)
    (hstale : st.lastValidated = Option.none ∨
        ∃ ts, st.lastValidated = some ts ∧ validationInterval < now - ts) :
    shouldRevalidateCredentials st now = true := by
  rcases hstale with h | ⟨ts, hts, hgt⟩
  · simp [shouldRevalidateCredentials, h]
  · simp only [shouldRevalidateCredentials, hts]
    split
    · rfl
    · simpa using hgt

/-- C3.  For a stored credentials value whose last-validated timestamp
is absent or more than 24 hours before `now`, `getCredentials` performs
exactly one silent validation whatever its outcome; when that
validation fails it returns null and deletes both the secret and the
timestamp; and every subsequent `getCredentials` on the cleared state
returns null with no further validation. -/
theorem stale_credentials_single_validation_and_clear (st : AuthState)
    (c : JiraCredentials) (now : Nat)
    (hc : st.storedCredentials = some c)
    (hstale : st.lastValidated = Option.none ∨
        ∃ ts, st.lastValidated = some ts ∧ validationInterval < now - ts) :
    (∀ ok, (getCredentials st now ok).validationCalls = 1) ∧
    getCredentials st now false =
      ⟨Option.none, ⟨Option.none, Option.none, false⟩, 1⟩ ∧
    (∀ now' ok, getCredentials ⟨Option.none, Option.none, false⟩ now' ok =
      ⟨Option.none, ⟨Option.none, Option.none, false⟩, 0⟩) := by
  have hrev := shouldRevalidate_of_stale st now hstale
  refine ⟨?_, ?_, fun _ _ => rfl⟩
  · intro ok
    cases ok <;> simp [getCredentials, hc, hrev, clearCredentials]
  · simp [getCredentials, hc, hrev, clearCredentials]

/-- Witness for C3 on a concrete state with no timestamp. -/
theorem stale_credentials_single_validation_and_clear_witness :
    (∀ ok, (getCredentials ⟨some ⟨"https://x", "e", "t"⟩, Option.none, true⟩ 100 ok).validationCalls = 1) ∧
    getCredentials ⟨some ⟨"https://x", "e", "t"⟩, Option.none, true⟩ 100 false =
      ⟨Option.none, ⟨Option.none, Option.none, false⟩, 1⟩ ∧
    (∀ now' ok, getCredentials ⟨Option.none, Option.none, false⟩ now' ok =
      ⟨Option.none, ⟨Option.none, Option.none, false⟩, 0⟩) :=
  stale_credentials_single_validation_and_clear
    ⟨some ⟨"https://x", "e", "t"⟩, Option.none, true⟩ ⟨"https://x", "e", "t"⟩ 100
    rfl (Or.inl rfl)

/-! ## C5 — `getAuthenticationStatus` is non-destructive only past `getCredentials`

The probe goes through `getCredentials` first, so when revalidation is
due and the silent validation fails, storage IS cleared inside
`getAuthenticationStatus` — the claim's "any remote error leaves
storage unchanged" fails there. -/

/-- C5 counterexample.  Stored credentials with no last-validated
timestamp: the silent validation performed inside the embedded
`getCredentials` call fails (one remote call, `validationCalls = 1`),
`getAuthenticationStatus` returns `{authenticated: false}` — and the
credential secret has been deleted from storage, contradicting the
claim that storage is left unchanged on any remote error. -/
theorem auth_status_clears_storage_counterexample :
    (getAuthenticationStatus ⟨some ⟨"https://x", "e", "t"⟩, Option.none, true⟩ 100 false
        (fun _ => Except.error "down")) =
      ⟨⟨false, Option.none, Option.none⟩, ⟨Option.none, Option.none, false⟩, 1⟩ ∧
    (⟨some ⟨"https://x", "e", "t"⟩, Option.none, true⟩ : AuthState).storedCredentials ≠
      Option.none := by
  decide

/-- C5 amended.  When the stored credentials are within the 24-hour
revalidation window (so the embedded `getCredentials` performs no
remote validation), any failure of the probe's own `/myself` call makes
`getAuthenticationStatus` return `{authenticated: false}` with the
stored secret and timestamp left unchanged; outside the window a
failing silent revalidation inside `getCredentials` clears storage. -/
theorem auth_status_probe_nondestructive (st : AuthState) (c : JiraCredentials)
    (now ts : Nat) (hc : st.storedCredentials = some c)
    (hts : st.lastValidated = some ts) (h0 : ts ≠ 0)
    (hfresh : now - ts ≤ validationInterval) (ok : Bool)
    (probe : JiraCredentials → Except String ProbeUserData) (msg : String)
    (hp : probe c = Except.error msg) :
    getAuthenticationStatus st now ok probe =
      ⟨⟨false, Option.none, Option.none⟩, st, 0⟩ := by
  have hrev : shouldRevalidateCredentials st now = false := by
    simp only [shouldRevalidateCredentials, hts]
    rw [if_neg h0]
    simpa using hfresh
  simp [getAuthenticationStatus, getCredentials, hc, hrev, hp]

/-- Witness for the amended C5 on a concrete fresh state and failing probe. -/
theorem auth_status_probe_nondestructive_witness :
    getAuthenticationStatus ⟨some ⟨"https://x", "e", "t"⟩, some 50, true⟩ 100 true
        (fun _ => Except.error "down") =
      ⟨⟨false, Option.none, Option.none⟩, ⟨some ⟨"https://x", "e", "t"⟩, some 50, true⟩, 0⟩ :=
  auth_status_probe_nondestructive ⟨some ⟨"https://x", "e", "t"⟩, some 50, true⟩
    ⟨"https://x", "e", "t"⟩ 100 50 rfl rfl (by decide) (by decide) true _ "down" rfl

/-! ## C7 — trailing slash stripped, stored, and read back without a remote call -/

theorem stripTrailingSlash_append_slash (b : String) :
    stripTrailingSlash (b ++ "/") = b := by
  have hcond : (b ++ "/").data.getLast? = some '/' := by
    rw [String.data_append]
    exact List.getLast?_concat _
  simp only [stripTrailingSlash]
  rw [if_pos hcond, String.data_append, List.dropLast_concat]

/-- C7.  A successful `authenticate` whose entered base URL is
`b ++ "/"` with `b` not itself slash-terminated (exactly one trailing
slash) stores and returns credentials with base URL `b`; and a
subsequent `getCredentials` whose last-validated timestamp is within
the 24-hour window returns exactly that stored value, performs zero
remote validations and leaves the state unchanged. -/
theorem authenticate_strips_slash_roundtrip (st : AuthState) (b email token : String)
    (_hb : b.data.getLast? ≠ some '/')
    (validation : JiraCredentials → Except String Unit)
    (hv : validation ⟨b, email, token⟩ = Except.ok ())
    (now ts : Nat) (hts : st.lastValidated = some ts) (h0 : ts ≠ 0)
    (hfresh : now - ts ≤ validationInterval) (ok : Bool) :
    authenticate st (some (b ++ "/")) (some email) (some token) validation =
      Except.ok (⟨b, email, token⟩,
        { st with storedCredentials := some ⟨b, email, token⟩ }) ∧
    getCredentials { st with storedCredentials := some ⟨b, email, token⟩ } now ok =
      ⟨some ⟨b, email, token⟩,
       { st with storedCredentials := some ⟨b, email, token⟩ }, 0⟩ := by
  constructor
  · simp [authenticate, stripTrailingSlash_append_slash, hv]
  · have hrev : shouldRevalidateCredentials
        { st with storedCredentials := some ⟨b, email, token⟩ } now = false := by
      simp only [shouldRevalidateCredentials, hts]
      rw [if_neg h0]
      simpa using hfresh
    simp [getCredentials, hrev]

/-- Witness for C7 on the spec's example URL `"https://x.atlassian.net/"`. -/
theorem authenticate_strips_slash_roundtrip_witness :
    authenticate ⟨Option.none, some 50, false⟩ (some ("https://x.atlassian.net" ++ "/"))
        (some "e@x.com") (some "token12345") (fun _ => Except.ok ()) =
      Except.ok (⟨"https://x.atlassian.net", "e@x.com", "token12345"⟩,
        ⟨some ⟨"https://x.atlassian.net", "e@x.com", "token12345"⟩, some 50, false⟩) ∧
    getCredentials ⟨some ⟨"https://x.atlassian.net", "e@x.com", "token12345"⟩, some 50, false⟩
        100 true =
      ⟨some ⟨"https://x.atlassian.net", "e@x.com", "token12345"⟩,
       ⟨some ⟨"https://x.atlassian.net", "e@x.com", "token12345"⟩, some 50, false⟩, 0⟩ :=
  authenticate_strips_slash_roundtrip ⟨Option.none, some 50, false⟩
    "https://x.atlassian.net" "e@x.com" "token12345" (by decide) _ rfl 100 50 rfl
    (by decide) (by decide) true

end VsCodeJira
